import Mathlib

set_option maxRecDepth 1000000

set_option maxHeartbeats 2000000

/-!
Shallow embedding of the fraud-call risk scoring engine
(`backend/enhanced_fraud_classifier.py`) and the live session monitor
(`backend/live_fraud_monitor.py`).

Python strings are modelled as `List Char`; Python floats are modelled as `ℚ`
(every constant in the scoring pipeline is a short decimal literal, and no
claim in scope hinges on binary floating-point rounding).  The optional
external ML classifier (the sklearn pipeline, an injected collaborator per the
spec) is modelled as an abstract port supplying its outputs.  Timestamps,
uuids and the websocket transport are external effects outside the scored
data flow and are omitted from the model.
-/

/-! ### String utilities (Python `str` operations used by the code) -/

/-- Model of Python `str.lower` on one character (ASCII case mapping; all
catalog patterns and keywords are ASCII). -/
def lowerChar (c : Char) : Char :=
  if c.toNat ≥ 65 ∧ c.toNat ≤ 90 then Char.ofNat (c.toNat + 32) else c

/-- Model of Python `str.lower`. -/
def lowerStr (s : List Char) : List Char := s.map lowerChar

/-- Whitespace test matching Python `str.split()` / `str.strip()` / regex
class behaviour on the character set that occurs in transcripts. -/
def isSpaceChar (c : Char) : Bool :=
  c == ' ' || c == '\t' || c == '\n' || c == '\r'

/-- Uppercase test, model of Python `str.isupper` on a character. -/
def isUpperChar (c : Char) : Bool := 65 ≤ c.toNat && c.toNat ≤ 90

/-- Digit test, model of Python `str.isdigit` on a character. -/
def isDigitChar (c : Char) : Bool := 48 ≤ c.toNat && c.toNat ≤ 57

/-- Word-character test for the regex `\b` assertion (Python `\w`). -/
def isWordChar (c : Char) : Bool :=
  (97 ≤ c.toNat && c.toNat ≤ 122) || (65 ≤ c.toNat && c.toNat ≤ 90) ||
  (48 ≤ c.toNat && c.toNat ≤ 57) || c == '_'

/-- Decides whether the first list is a leading segment of the second. -/
def leadsL : List Char → List Char → Bool
  | [], _ => true
  | _ :: _, [] => false
  | a :: n, b :: h => a == b && leadsL n h

/-- Model of Python substring containment `needle in haystack`. -/
def subL (n : List Char) : List Char → Bool
  | [] => n.isEmpty
  | c :: t => leadsL n (c :: t) || subL n t

/-- Model of Python `str.strip()` (drop whitespace from both ends). -/
def stripChars (l : List Char) : List Char :=
  ((l.dropWhile (fun c => isSpaceChar c)).reverse.dropWhile
    (fun c => isSpaceChar c)).reverse

/-- Model of Python slicing `s[-n:]` (the last `n` characters). -/
def lastN (n : Nat) (l : List Char) : List Char := l.drop (l.length - n)

/-- Helper for `wordsOf`: accumulates the current in-progress word (reversed)
while scanning. -/
def wordsAux : List Char → List Char → List (List Char)
  | [], cur => if cur.isEmpty then [] else [cur.reverse]
  | c :: t, cur =>
    if isSpaceChar c then
      if cur.isEmpty then wordsAux t [] else cur.reverse :: wordsAux t []
    else wordsAux t (c :: cur)

/-- Model of Python `str.split()` with no argument: maximal runs of
non-whitespace characters, empties discarded. -/
def wordsOf (s : List Char) : List (List Char) := wordsAux s []

/-- Model of Python `str.split('.')`: split at every dot, keeping empties. -/
def splitDot : List Char → List (List Char)
  | [] => [[]]
  | c :: t =>
    if c == '.' then [] :: splitDot t
    else
      match splitDot t with
      | [] => [[c]]
      | h :: r => (c :: h) :: r

/-! ### Regular-expression engine

The fraud catalog stores 26 regex patterns built from literals, alternation
`(a|b)`, mandatory whitespace `\s+`, optional pieces `(x)?` / `s?`, the
word-boundary assertion `\b` and `.*`.  The engine below implements exactly
those constructs: `mA r prev rest` returns every state
`(last consumed char, remaining input)` reachable by matching `r` at the
current position, and `reSearch` models `re.search` (try every start
position). -/

/-- Regex abstract syntax: the constructs used by the fraud pattern catalog. -/
inductive RE where
  | eps : RE
  | ch (c : Char) : RE
  | anyc : RE
  | ws : RE
  | wb : RE
  | alt (a b : RE) : RE
  | seq (a b : RE) : RE
  | star (a : RE) : RE
  | opt (a : RE) : RE
deriving Repr

/-- Word-boundary test at a position described by the previous character and
the remaining input (Python `\b`: exactly one side is a word character). -/
def atBoundary (prev : Option Char) (rest : List Char) : Bool :=
  let before := match prev with
    | none => false
    | some c => isWordChar c
  let after := match rest with
    | [] => false
    | c :: _ => isWordChar c
  before != after

/-- Iterates a single-step matcher zero-or-more additional times, keeping only
strictly consuming iterations (an iteration matching the empty string adds no
new state, so this preserves the reachable-state set of `*`). -/
def iterStar (f : Option Char → List Char → List (Option Char × List Char)) :
    Nat → Option Char → List Char → List (Option Char × List Char)
  | 0, _, _ => []
  | n + 1, p, s =>
    ((f p s).filter (fun x => x.2.length < s.length)).flatMap
      (fun x => x :: iterStar f n x.1 x.2)

/-- Position-aware regex matcher: all states reachable by matching `r` once
starting from previous character `p` and remaining input `s`. -/
def mA : RE → Option Char → List Char → List (Option Char × List Char)
  | .eps, p, s => [(p, s)]
  | .ch c, _, s =>
    match s with
    | [] => []
    | x :: t => if x == c then [(some x, t)] else []
  | .anyc, _, s =>
    match s with
    | [] => []
    | x :: t => if x == '\n' then [] else [(some x, t)]
  | .ws, _, s =>
    match s with
    | [] => []
    | x :: t => if isSpaceChar x then [(some x, t)] else []
  | .wb, p, s => if atBoundary p s then [(p, s)] else []
  | .alt a b, p, s => mA a p s ++ mA b p s
  | .seq a b, p, s => (mA a p s).flatMap (fun x => mA b x.1 x.2)
  | .opt a, p, s => (p, s) :: mA a p s
  | .star a, p, s => (p, s) :: iterStar (fun q t => mA a q t) s.length p s

/-- Helper for `reSearch`: try to match at the current position, else advance
one character. -/
def searchAux (r : RE) : Option Char → List Char → Bool
  | p, [] => !(mA r p []).isEmpty
  | p, c :: t => !(mA r p (c :: t)).isEmpty || searchAux r (some c) t

/-- Model of Python `re.search(r, s)` viewed as a Boolean (the code only uses
its truthiness). -/
def reSearch (r : RE) (s : List Char) : Bool := searchAux r none s

/-- Regex literal built from a string. -/
def reLit : List Char → RE
  | [] => .eps
  | c :: t => .seq (.ch c) (reLit t)

/-- Literal regex from a string literal. -/
def lit (s : String) : RE := reLit s.data

/-- Regex `\s+`. -/
def wsPlus : RE := .seq .ws (.star .ws)

/-- Regex `.*`. -/
def dotStar : RE := .star .anyc

/-- Alternation of a list of regexes. -/
def alts : List RE → RE
  | [] => .eps
  | [a] => a
  | a :: b :: t => .alt a (alts (b :: t))

/-- Sequencing of a list of regexes. -/
def cats : List RE → RE
  | [] => .eps
  | [a] => a
  | a :: b :: t => .seq a (cats (b :: t))

/-! ### Pattern catalog (`EnhancedFraudClassifier._load_fraud_patterns`)

Each entry transliterates one `FraudPattern(pattern, weight, category,
description, regex)` of the source: regex pattern strings become `RE` values,
plain keyword patterns stay strings; weights are the same decimal constants
as rationals. -/

/-- Discriminates the two matching modes of a catalog entry (`regex=True`
versus plain substring). -/
inductive PatternKind where
  | regex (r : RE)
  | keyword (s : String)

/-- Model of the source dataclass `FraudPattern`. -/
structure FraudPattern where
  kind : PatternKind
  weight : ℚ
  category : String
  description : String

/-- Model of `_load_fraud_patterns`: the full catalog, in source order. -/
def fraud_patterns : List FraudPattern := [
  ⟨.regex (cats [.wb, alts [lit "transfer", lit "send"], wsPlus,
      alts [lit "money", lit "cash", lit "funds"]]),
    2, "financial", "Money transfer request"⟩,
  ⟨.regex (cats [.wb, alts [lit "bank", lit "account"], wsPlus,
      alts [lit "details", lit "information", lit "number"]]),
    18/10, "financial", "Bank account information request"⟩,
  ⟨.regex (cats [.wb, alts [cats [lit "credit", wsPlus, lit "card"],
      cats [lit "debit", wsPlus, lit "card"]], wsPlus,
      alts [lit "number", lit "details"]]),
    22/10, "financial", "Credit card information request"⟩,
  ⟨.regex (cats [.wb, alts [cats [lit "social", wsPlus, lit "security"],
      lit "ssn"], wsPlus, .opt (lit "number")]),
    25/10, "identity", "SSN request"⟩,
  ⟨.regex (cats [.wb, alts [cats [lit "routing", wsPlus, lit "number"],
      cats [lit "account", wsPlus, lit "number"]]]),
    2, "financial", "Banking details request"⟩,
  ⟨.regex (cats [.wb, alts [lit "verify", lit "confirm"], wsPlus,
      alts [lit "your", lit "account", lit "identity"]]),
    15/10, "verification", "Identity verification request"⟩,
  ⟨.regex (cats [.wb, alts [lit "otp",
      cats [lit "one", wsPlus, lit "time", wsPlus, lit "password"],
      cats [lit "verification", wsPlus, lit "code"]]]),
    21/10, "verification", "OTP/verification code request"⟩,
  ⟨.regex (cats [.wb, alts [lit "enter", lit "provide", lit "give"], wsPlus,
      alts [lit "code", lit "password", lit "pin"]]),
    19/10, "verification", "Security code request"⟩,
  ⟨.regex (cats [.wb, alts [cats [lit "two", wsPlus, lit "factor"], lit "2fa",
      cats [lit "multi", wsPlus, lit "factor"]], wsPlus, lit "authentication"]),
    17/10, "verification", "2FA bypass attempt"⟩,
  ⟨.regex (cats [.wb, alts [lit "urgent", lit "emergency", lit "immediate",
      cats [lit "expire", .opt (.ch 's'), wsPlus,
        alts [lit "today", lit "soon"]]]]),
    13/10, "urgency", "Urgency pressure tactic"⟩,
  ⟨.regex (cats [.wb, alts [cats [lit "act", wsPlus, lit "now"],
      cats [lit "limited", wsPlus, lit "time"], lit "hurry", lit "quickly"]]),
    12/10, "urgency", "Time pressure tactic"⟩,
  ⟨.regex (cats [.wb, alts [lit "suspended", lit "frozen", lit "blocked",
      lit "closed"], wsPlus, alts [lit "account", lit "card"]]),
    16/10, "urgency", "Account threat"⟩,
  ⟨.regex (cats [.wb, alts [lit "irs",
      cats [lit "internal", wsPlus, lit "revenue"],
      cats [lit "tax", wsPlus, lit "department"]]]),
    2, "impersonation", "IRS impersonation"⟩,
  ⟨.regex (cats [.wb, alts [lit "fbi", lit "police",
      cats [lit "law", wsPlus, lit "enforcement"], lit "detective"]]),
    22/10, "impersonation", "Law enforcement impersonation"⟩,
  ⟨.regex (cats [.wb, alts [lit "microsoft", lit "apple", lit "google",
      lit "amazon"], wsPlus, alts [lit "support", lit "security"]]),
    18/10, "impersonation", "Tech company impersonation"⟩,
  ⟨.regex (cats [.wb, alts [lit "bank",
      cats [lit "financial", wsPlus, lit "institution"]], wsPlus,
      alts [lit "representative", lit "agent"]]),
    17/10, "impersonation", "Bank impersonation"⟩,
  ⟨.regex (cats [.wb, alts [lit "virus", lit "malware", lit "infected",
      lit "hacked"], wsPlus, alts [lit "computer", lit "device"]]),
    19/10, "tech_scam", "Fake virus/malware alert"⟩,
  ⟨.regex (cats [.wb, alts [cats [lit "remote", wsPlus, lit "access"],
      cats [lit "team", wsPlus, lit "viewer"],
      cats [lit "screen", wsPlus, lit "share"]]]),
    23/10, "tech_scam", "Remote access request"⟩,
  ⟨.regex (cats [.wb, alts [cats [lit "windows", wsPlus, lit "key"],
      cats [lit "run", wsPlus, lit "command"], lit "cmd", lit "registry"]]),
    2, "tech_scam", "System access instruction"⟩,
  ⟨.regex (cats [.wb, alts [lit "congratulations", lit "winner", lit "won",
      lit "lottery", lit "prize"]]),
    14/10, "prize_scam", "Prize/lottery scam"⟩,
  ⟨.regex (cats [.wb, alts [lit "claim", lit "collect"], wsPlus,
      alts [lit "prize", lit "winnings", lit "money"]]),
    16/10, "prize_scam", "Prize claim request"⟩,
  ⟨.regex (cats [.wb, alts [lit "love", lit "relationship", lit "marry",
      lit "marriage"], wsPlus, dotStar,
      alts [lit "money", lit "help", lit "emergency"]]),
    18/10, "romance", "Romance scam indicator"⟩,
  ⟨.regex (cats [.wb, alts [lit "deployed", lit "military", lit "overseas"],
      wsPlus, dotStar, alts [lit "money", lit "funds", lit "help"]]),
    19/10, "romance", "Military romance scam"⟩,
  ⟨.regex (cats [.wb, alts [lit "investment", lit "crypto", lit "bitcoin",
      lit "trading"], wsPlus, alts [lit "opportunity", lit "guaranteed"]]),
    17/10, "investment", "Investment scam"⟩,
  ⟨.regex (cats [.wb, alts [cats [lit "high", wsPlus, lit "returns"],
      cats [lit "guaranteed", wsPlus, lit "profit"],
      cats [lit "double", wsPlus, lit "your", wsPlus, lit "money"]]]),
    2, "investment", "Unrealistic returns promise"⟩,
  ⟨.regex (cats [.wb, alts [lit "donation", lit "charity",
      cats [lit "disaster", wsPlus, lit "relief"]], wsPlus, dotStar,
      alts [lit "urgent", lit "help", lit "emergency"]]),
    15/10, "charity", "Charity scam"⟩,
  ⟨.keyword "transfer", 12/10, "financial", "Money transfer keyword"⟩,
  ⟨.keyword "bank", 1, "financial", "Banking keyword"⟩,
  ⟨.keyword "account", 1, "financial", "Account keyword"⟩,
  ⟨.keyword "otp", 18/10, "verification", "OTP keyword"⟩,
  ⟨.keyword "code", 11/10, "verification", "Code keyword"⟩,
  ⟨.keyword "verify", 13/10, "verification", "Verification keyword"⟩,
  ⟨.keyword "password", 15/10, "security", "Password keyword"⟩,
  ⟨.keyword "ssn", 2, "identity", "SSN keyword"⟩,
  ⟨.keyword "social security", 22/10, "identity", "Social Security keyword"⟩,
  ⟨.keyword "urgent", 12/10, "urgency", "Urgency keyword"⟩,
  ⟨.keyword "immediate", 13/10, "urgency", "Immediate action keyword"⟩,
  ⟨.keyword "suspended", 14/10, "threat", "Account suspension threat"⟩,
  ⟨.keyword "frozen", 14/10, "threat", "Account frozen threat"⟩]

/-- One catalog entry applied to an already-lowered text, mirroring the loop
body of `match_fraud_patterns` (regex search over the lowered text, or
lowered-substring containment). -/
def patternHits (lower : List Char) (p : FraudPattern) : Bool :=
  match p.kind with
  | .regex r => reSearch r lower
  | .keyword s => subL (lowerStr s.data) lower

/-- Model of `match_fraud_patterns`: matched `(category, description)` pairs
in catalog order together with the summed weight.  (The source accumulates
the formatted string `"category: description"`; categories and descriptions
never contain `": "`, so the pair representation is lossless.) -/
def match_fraud_patterns (text : List Char) : List (String × String) × ℚ :=
  let lower := lowerStr text
  fraud_patterns.foldl
    (fun acc p =>
      if patternHits lower p then
        (acc.1 ++ [(p.category, p.description)], acc.2 + p.weight)
      else acc)
    ([], 0)

/-! ### Linguistic features (`extract_linguistic_features`) -/

/-- Model of the linguistic feature mapping computed per scored text.
All ten keys of the source dict become fields; integer-valued signals are
`Nat`, the two ratio signals are `ℚ`. -/
structure LinguisticFeatures where
  word_count : Nat
  sentence_count : Nat
  avg_word_length : ℚ
  exclamation_count : Nat
  question_count : Nat
  uppercase_ratio : ℚ
  digit_count : Nat
  urgency_words : Nat
  money_words : Nat
  personal_info_words : Nat
deriving Repr, DecidableEq

/-- The closed urgency word list of `extract_linguistic_features`. -/
def urgencyWordList : List (List Char) :=
  ["urgent".data, "emergency".data, "immediately".data, "now".data,
    "quickly".data, "hurry".data]

/-- The closed money word list of `extract_linguistic_features`. -/
def moneyWordList : List (List Char) :=
  ["money".data, "cash".data, "dollar".data, "payment".data, "transfer".data,
    "send".data, "pay".data]

/-- The closed personal-information word list of
`extract_linguistic_features`. -/
def personalInfoWordList : List (List Char) :=
  ["ssn".data, "social".data, "security".data, "password".data, "pin".data,
    "account".data, "number".data]

/-- Counts the words whose lowercased form is a member of the given closed
list (`sum(1 for word in words if word.lower() in [...])`). -/
def countWordsIn (ws : List (List Char)) (wordList : List (List Char)) : Nat :=
  ws.countP (fun w => wordList.contains (lowerStr w))

/-- Model of `extract_linguistic_features` (operates on the raw transcript). -/
def extract_linguistic_features (text : List Char) : LinguisticFeatures :=
  let ws := wordsOf text
  { word_count := ws.length
    sentence_count :=
      ((splitDot text).filter (fun s => !(stripChars s).isEmpty)).length
    avg_word_length :=
      if ws.isEmpty then 0
      else ((ws.map (fun w => (w.length : ℚ))).sum) / (ws.length : ℚ)
    exclamation_count := text.count '!'
    question_count := text.count '?'
    uppercase_ratio :=
      if text.isEmpty then 0
      else ((text.countP (fun c => isUpperChar c)) : ℚ) / (text.length : ℚ)
    digit_count := text.countP (fun c => isDigitChar c)
    urgency_words := countWordsIn ws urgencyWordList
    money_words := countWordsIn ws moneyWordList
    personal_info_words := countWordsIn ws personalInfoWordList }

/-! ### Risk scoring and classification (`calculate_risk_score`, `classify`)

The optional sklearn pipeline is an injected external collaborator (the
"optional classifier port" of the spec).  Its two uses inside the scorer are
modelled by `MLPort`: `scamProb` is the probability reported for the `Scam`
class inside `calculate_risk_score` (`none` when the pipeline is absent, the
`Scam` class is missing, or `predict_proba` raised — all three yield
`ml_score = 0`), and `pred` is the `(predicted label, max probability)` pair
used by the confidence-override step of `classify` (`none` when the pipeline
is absent or `predict` raised). -/

/-- Abstract port for the optional external ML classifier. -/
structure MLPort where
  scamProb : Option ℚ
  pred : Option (String × ℚ)

/-- The port describing an absent external classifier. -/
def mlAbsent : MLPort := ⟨none, none⟩

/-- Scam-probability contribution actually used by the scorer (0 when the
port reports nothing). -/
def mlScamProb (ml : MLPort) : ℚ :=
  match ml.scamProb with
  | none => 0
  | some p => p

/-- Model of `calculate_risk_score`: pattern score capped at 0.4, linguistic
score capped at 0.3, ML score bounded by 0.3, total capped at 1. -/
def calculate_risk_score (f : LinguisticFeatures) (patternWeight : ℚ)
    (ml : MLPort) : ℚ :=
  let patternScore := min (4/10) (patternWeight / 10)
  let linguisticRaw :=
    (if f.urgency_words > 0 then (5/100 : ℚ) else 0) +
    (if f.money_words > 0 then (1/10 : ℚ) else 0) +
    (if f.personal_info_words > 0 then (15/100 : ℚ) else 0) +
    (if f.exclamation_count > 2 then (5/100 : ℚ) else 0) +
    (if f.uppercase_ratio > 3/10 then (5/100 : ℚ) else 0)
  let linguisticScore := min (3/10) linguisticRaw
  let mlScore := mlScamProb ml * (3/10)
  min 1 (patternScore + linguisticScore + mlScore)

/-- Rounding to three decimal places, model of Python `round(x, 3)` on the
values reachable here.  (Python rounds half to even; no value produced by the
scoring pipeline in any statement below sits exactly on a half-thousandth
boundary, so half-up is observably identical.) -/
def round3 (q : ℚ) : ℚ := (⌊q * 1000 + 1/2⌋ : ℤ) / 1000

/-- Composite risk score of a text given the ML port: the pattern weight and
raw-text linguistic features fed through `calculate_risk_score`, exactly as
in `classify` steps 1–4. -/
def riskOf (text : List Char) (ml : MLPort) : ℚ :=
  calculate_risk_score (extract_linguistic_features text)
    (match_fraud_patterns text).2 ml

/-- Model of the source dataclass `ClassificationResult`.  The `timestamp`
field (a wall-clock effect) is omitted; the `linguistic_features` dict is
`none` in the fallback result, mirroring the empty dict `{}`. -/
structure ClassificationResult where
  label : String
  confidence : ℚ
  rationale : String
  keywords : List String
  risk_score : ℚ
  fraud_indicators : List String
  linguistic_features : Option LinguisticFeatures
  pattern_matches : List String
  recommendation : String
deriving Repr, DecidableEq

/-- Model of `generate_recommendation`. -/
def generate_recommendation (risk_score : ℚ) (label : String) : String :=
  if label == "Scam" || risk_score > 7/10 then
    "⚠️ HIGH RISK: This appears to be a scam call. Do NOT provide personal information, money, or access to your devices. Hang up immediately and report the call."
  else if label == "Suspicious" || risk_score > 4/10 then
    "⚠️ SUSPICIOUS: This call shows warning signs. Be cautious, verify the caller's identity independently, and avoid sharing sensitive information."
  else
    "✅ SAFE: This call appears legitimate, but always verify caller identity for sensitive requests."

/-- The formatted indicator string `"category: description"` of one match. -/
def indicatorString (m : String × String) : String := m.1 ++ ": " ++ m.2

/-- Rationale text assembled from the match list: up to the first three
indicators plus a count of the remainder. -/
def rationaleOf (ms : List (String × String)) : String :=
  if ms.isEmpty then "No significant fraud indicators detected."
  else
    "Detected " ++ toString ms.length ++ " fraud indicators: " ++
      String.intercalate ", " ((ms.take 3).map indicatorString) ++
      (if ms.length > 3 then
        " and " ++ toString (ms.length - 3) ++ " more." else "")

/-- Threshold-derived confidence of `classify` (the value of `confidence`
before the external-override step). -/
def baseConfidence (risk : ℚ) : ℚ :=
  if risk > 7/10 then min (95/100) (7/10 + (risk - 7/10) * (5/10))
  else if risk > 4/10 then 6/10 + (risk - 4/10) * (3/10)
  else max (3/10) (1 - risk)

/-- Model of the body of `classify` (the code inside the `try`): features,
pattern matches, composite risk score, threshold label/confidence, optional
external override of label and confidence, assembled result. -/
def classifyBody (transcript : List Char) (ml : MLPort) : ClassificationResult :=
  let linguistic_features := extract_linguistic_features transcript
  let mp := match_fraud_patterns transcript
  let risk_score := calculate_risk_score linguistic_features mp.2 ml
  let label0 :=
    if risk_score > 7/10 then "Scam"
    else if risk_score > 4/10 then "Suspicious"
    else "Safe"
  let conf0 := baseConfidence risk_score
  let labelConf :=
    match ml.pred with
    | some lp => if lp.2 > conf0 then (lp.1, min (95/100) lp.2) else (label0, conf0)
    | none => (label0, conf0)
  { label := labelConf.1
    confidence := round3 labelConf.2
    rationale := rationaleOf mp.1
    keywords := mp.1.map (fun m => m.2)
    risk_score := round3 risk_score
    fraud_indicators := mp.1.map indicatorString
    linguistic_features := some linguistic_features
    pattern_matches := mp.1.map (fun m => m.1)
    recommendation := generate_recommendation risk_score labelConf.1 }

/-- The fallback `ClassificationResult` built by the `except` branch of
`classify` for a failure message `e`. -/
def fallbackResult (e : String) : ClassificationResult :=
  { label := "Safe"
    confidence := 3/10
    rationale := "Classification error: " ++ e
    keywords := []
    risk_score := 0
    fraud_indicators := []
    linguistic_features := none
    pattern_matches := []
    recommendation := "Unable to analyze call. Please use caution." }

/-- Model of the `try`/`except` boundary of `classify`: a failing body is
converted to the fallback result, a successful body is returned as is. -/
def classifyCatch (body : Except String ClassificationResult) :
    ClassificationResult :=
  match body with
  | .ok r => r
  | .error e => fallbackResult e

/-- Model of `classify`: in the shallow embedding every step of the body is
total, so the guarded body always succeeds. -/
def classify (transcript : List Char) (ml : MLPort) : ClassificationResult :=
  classifyCatch (.ok (classifyBody transcript ml))

/-! ### Live session monitor (`live_fraud_monitor.py`)

`RealTimeFraudMonitor` holds a session dictionary, an alert threshold
(default 0.3) and fixed keyword lists.  Websocket delivery is modelled as a
list of emitted `MonitorEvent`s; uuid/timestamp fields of alerts are external
effects and omitted.  The full-context analysis invokes the injected global
classifier; the model takes that classifier as a function parameter `cf`. -/

/-- The fixed high-signal keyword list `fraud_keywords`. -/
def fraud_keywords : List String :=
  ["urgent", "immediate", "limited time", "act now", "verify account",
    "suspended", "blocked", "security breach", "unauthorized",
    "confirm identity", "send money", "wire transfer", "gift card",
    "cryptocurrency", "bitcoin", "social security", "bank account",
    "credit card", "password", "PIN", "IRS", "government agency",
    "arrest warrant", "legal action", "refund", "prize", "lottery", "winner",
    "congratulations", "inheritance"]

/-- The "high" keyword set of `_calculate_severity`. -/
def high_risk_keywords : List String :=
  ["send money", "wire transfer", "gift card", "bitcoin", "social security",
    "arrest warrant"]

/-- The "critical" keyword set of `_calculate_severity`. -/
def critical_keywords : List String :=
  ["suspended", "blocked", "verify account", "confirm identity", "IRS"]

/-- Keyword detection of `_analyze_segment_immediate`: every fraud keyword
(verbatim, not lowered) that occurs as a substring of the lowercased segment
text, in keyword-list order. -/
def detectedKeywords (text : List Char) : List String :=
  fraud_keywords.filter (fun k => subL k.data (lowerStr text))

/-- Model of `_calculate_severity` (the `text` argument of the source is
unused by its body). -/
def calculate_severity (keywords : List String) : String :=
  if critical_keywords.any (fun k => keywords.contains k) then "CRITICAL"
  else if high_risk_keywords.any (fun k => keywords.contains k) then "HIGH"
  else if keywords.length ≥ 3 then "MEDIUM"
  else "LOW"

/-- Model of `_determine_risk_level`. -/
def determine_risk_level (risk_score : ℚ) : String :=
  if risk_score ≥ 8/10 then "CRITICAL"
  else if risk_score ≥ 6/10 then "HIGH"
  else if risk_score ≥ 4/10 then "MEDIUM"
  else "LOW"

/-- Model of the source dataclass `FraudAlert` (uuid `alert_id`, `session_id`
and wall-clock `timestamp` omitted). -/
structure FraudAlert where
  severity : String
  alert_type : String
  confidence : ℚ
  risk_score : ℚ
  message : String
  transcript_segment : List Char
  indicators : List String
  recommended_action : String
deriving Repr, DecidableEq

/-- Model of the source dataclass `LiveSession` (the `session_id` and
wall-clock `start_time` are keys/effects handled by the store). -/
structure LiveSession where
  accumulated_transcript : List Char
  alerts : List FraudAlert
  risk_level : String
  total_risk_score : ℚ
  is_active : Bool
deriving Repr, DecidableEq

/-- Session state created by `start_session`. -/
def newLiveSession : LiveSession :=
  { accumulated_transcript := []
    alerts := []
    risk_level := "LOW"
    total_risk_score := 0
    is_active := true }

/-- Everything the monitor pushes through the websocket during segment
processing: fraud alerts and `context_analysis` snapshots. -/
inductive MonitorEvent where
  | alertSent (a : FraudAlert)
  | contextAnalysis (risk_level : String) (risk_score : ℚ) (confidence : ℚ)
      (label : String)
deriving Repr, DecidableEq

/-- Incoming segment at the ingestion boundary: the three accepted shapes
(object with `.text`, dict with `'text'`, raw string) all reduce to a carried
text, every other shape is unparseable. -/
inductive Segment where
  | withText (text : String)
  | unparseable
deriving Repr, DecidableEq

/-- The keyword-triage alert built by `_analyze_segment_immediate`. -/
def triageAlert (sev : String) (text : List Char) (detected : List String) :
    FraudAlert :=
  { severity := sev
    alert_type := "SCAM_KEYWORDS"
    confidence := 8/10
    risk_score := if sev == "HIGH" then 7/10 else 9/10
    message := "⚠️ " ++ sev ++ " RISK: Fraud keywords detected"
    transcript_segment := text
    indicators := detected
    recommended_action := "IMMEDIATE ATTENTION REQUIRED - Possible scam call" }

/-- Model of `_analyze_segment_immediate` on the extracted segment text:
detect keywords, compute severity, emit a `SCAM_KEYWORDS` alert when the
severity is HIGH or CRITICAL. -/
def analyze_segment_immediate (sess : LiveSession) (text : List Char) :
    LiveSession × List MonitorEvent :=
  let detected := detectedKeywords text
  if detected.isEmpty then (sess, [])
  else
    let sev := calculate_severity detected
    if sev = "HIGH" ∨ sev = "CRITICAL" then
      let a := triageAlert sev text detected
      ({ sess with alerts := sess.alerts ++ [a] }, [.alertSent a])
    else (sess, [])

/-- The escalation alert built by `_analyze_full_context` from the classifier
result and the accumulated transcript (its transcript excerpt is the last 200
characters of the unstripped accumulated transcript). -/
def contextEscalationAlert (result : ClassificationResult)
    (accumulated : List Char) : FraudAlert :=
  { severity := determine_risk_level result.risk_score
    alert_type := "CONTEXT_ANALYSIS"
    confidence := result.confidence
    risk_score := result.risk_score
    message := "🚨 Risk escalation detected: " ++ result.label
    transcript_segment := lastN 200 accumulated
    indicators := result.fraud_indicators.take 3
    recommended_action := result.recommendation }

/-- Model of `_analyze_full_context`: below 50 stripped characters nothing
happens; otherwise the session risk is re-scored on the whole stripped
transcript, a `context_analysis` snapshot is emitted and, when the new score
exceeds the alert threshold and the previous score by more than 0.2, a
`CONTEXT_ANALYSIS` escalation alert is appended and emitted. -/
def analyze_full_context (cf : List Char → ClassificationResult)
    (alertThreshold : ℚ) (sess : LiveSession) :
    LiveSession × List MonitorEvent :=
  if (stripChars sess.accumulated_transcript).length < 50 then (sess, [])
  else
    let result := cf (stripChars sess.accumulated_transcript)
    let previous_risk := sess.total_risk_score
    let sess1 := { sess with
      total_risk_score := result.risk_score
      risk_level := determine_risk_level result.risk_score }
    let snapshot := MonitorEvent.contextAnalysis sess1.risk_level
      result.risk_score result.confidence result.label
    if result.risk_score > alertThreshold ∧
        result.risk_score > previous_risk + 2/10 then
      let a := contextEscalationAlert result sess.accumulated_transcript
      ({ sess1 with alerts := sess1.alerts ++ [a] },
        [snapshot, .alertSent a])
    else (sess1, [snapshot])

/-- Model of `process_transcript_segment` for one session: inactive sessions
and unparseable segments are left untouched; otherwise `" " + text` is
appended to the accumulated transcript, the segment is triaged immediately,
then the full context is re-analyzed. -/
def process_transcript_segment (cf : List Char → ClassificationResult)
    (alertThreshold : ℚ) (sess : LiveSession) (seg : Segment) :
    LiveSession × List MonitorEvent :=
  if !sess.is_active then (sess, [])
  else
    match seg with
    | .unparseable => (sess, [])
    | .withText s =>
      let sess1 := { sess with
        accumulated_transcript := sess.accumulated_transcript ++ ' ' :: s.data }
      let step1 := analyze_segment_immediate sess1 s.data
      let step2 := analyze_full_context cf alertThreshold step1.1
      (step2.1, step1.2 ++ step2.2)

/-- Folds a list of segments through `process_transcript_segment`,
accumulating the emitted events. -/
def processSegments (cf : List Char → ClassificationResult)
    (alertThreshold : ℚ) : LiveSession → List Segment →
    LiveSession × List MonitorEvent
  | sess, [] => (sess, [])
  | sess, seg :: rest =>
    let step := process_transcript_segment cf alertThreshold sess seg
    let next := processSegments cf alertThreshold step.1 rest
    (next.1, step.2 ++ next.2)

/-! ### Session teardown (`end_session`) -/

/-- Model of the final report dict (wall-clock `duration` and `timestamp`
omitted). -/
structure FinalReport where
  session_id : String
  final_transcript : List Char
  total_alerts : Nat
  final_risk_level : String
  final_risk_score : ℚ
  alerts_by_severity : List (String × Nat)
  key_fraud_indicators : List String
  recommendations : List String
deriving Repr, DecidableEq

/-- Model of `_group_alerts_by_severity`. -/
def group_alerts_by_severity (alerts : List FraudAlert) : List (String × Nat) :=
  [("CRITICAL", alerts.countP (fun a => a.severity == "CRITICAL")),
    ("HIGH", alerts.countP (fun a => a.severity == "HIGH")),
    ("MEDIUM", alerts.countP (fun a => a.severity == "MEDIUM")),
    ("LOW", alerts.countP (fun a => a.severity == "LOW"))]

/-- Distinct elements in order of first occurrence (the key order of a Python
`Counter` built by insertion). -/
def firstSeen (l : List String) : List String :=
  l.foldl (fun acc x => if acc.contains x then acc else acc ++ [x]) []

/-- Stable insertion into a count-descending list (later-inserted elements go
after earlier ones of the same count, matching `Counter.most_common` tie
order). -/
def insertByCount (x : String × Nat) : List (String × Nat) →
    List (String × Nat)
  | [] => [x]
  | y :: t => if y.2 < x.2 then x :: y :: t else y :: insertByCount x t

/-- Model of `_extract_key_indicators`: the ten most frequent indicator
strings across all alerts, most frequent first. -/
def extract_key_indicators (alerts : List FraudAlert) : List String :=
  let all := alerts.flatMap (fun a => a.indicators)
  let counted := (firstSeen all).map (fun x => (x, all.count x))
  ((counted.foldl (fun acc x => insertByCount x acc) []).map
    (fun x => x.1)).take 10

/-- Model of `_generate_final_recommendations`. -/
def generate_final_recommendations (sess : LiveSession) : List String :=
  if sess.total_risk_score ≥ 8/10 then
    ["🚨 HIGH FRAUD RISK: Immediately hang up and report this call",
      "Do not provide any personal or financial information",
      "Contact the organization directly using official phone numbers"]
  else if sess.total_risk_score ≥ 6/10 then
    ["⚠️ SUSPICIOUS CALL: Exercise extreme caution",
      "Verify caller identity through official channels",
      "Do not make immediate decisions or payments"]
  else if sess.total_risk_score ≥ 4/10 then
    ["🔍 POTENTIAL RISK: Stay vigilant during this call",
      "Be cautious about sharing personal information"]
  else
    ["✅ LOW RISK: Call appears legitimate but remain cautious"]

/-- The final report snapshot built by `end_session` just before the session
is deleted. -/
def buildFinalReport (sid : String) (sess : LiveSession) : FinalReport :=
  { session_id := sid
    final_transcript := stripChars sess.accumulated_transcript
    total_alerts := sess.alerts.length
    final_risk_level := sess.risk_level
    final_risk_score := sess.total_risk_score
    alerts_by_severity := group_alerts_by_severity sess.alerts
    key_fraud_indicators := extract_key_indicators sess.alerts
    recommendations := generate_final_recommendations sess }

/-- The monitor's session registry, keyed by session id. -/
def SessionStore := List (String × LiveSession)

/-- Removal of a key from the registry (Python `del self.sessions[sid]`). -/
def eraseSession (store : SessionStore) (sid : String) : SessionStore :=
  List.filter (fun kv => !(kv.1 == sid)) store

/-- Model of `end_session`: an unknown id yields the explicit error value
(the source returns `{"error": "Session not found"}`); a known session is
deactivated, snapshotted into the final report and removed from the store. -/
def end_session (store : SessionStore) (sid : String) :
    Except String (FinalReport × SessionStore) :=
  match List.lookup sid store with
  | none => .error "Session not found"
  | some sess =>
    .ok (buildFinalReport sid { sess with is_active := false },
      eraseSession store sid)

/-! ### Helper lemmas -/

/-- Lowering an uppercase ASCII letter adds 32 to its code point. -/
theorem toNat_lowerChar (c : Char) (h : c.toNat ≥ 65 ∧ c.toNat ≤ 90) :
    (lowerChar c).toNat = c.toNat + 32 := by
  unfold lowerChar
  rw [if_pos h]
  have hv : (c.toNat + 32).isValidChar := by
    unfold Nat.isValidChar
    left
    have := c.val.toNat_lt_size
    simp [UInt32.size] at this
    omega
  rw [Char.ofNat, dif_pos hv]
  rfl

/-- No character lowers to an uppercase ASCII letter. -/
theorem lowerChar_ne_upper (c d : Char) (hd : d.toNat ≥ 65 ∧ d.toNat ≤ 90) :
    lowerChar c ≠ d := by
  intro he
  by_cases h : c.toNat ≥ 65 ∧ c.toNat ≤ 90
  · have := toNat_lowerChar c h
    rw [he] at this
    omega
  · unfold lowerChar at he
    rw [if_neg h] at he
    subst he
    exact h hd

/-- A nonempty substring occurring in a list puts its first character in the
list. -/
theorem mem_of_subL_cons (c : Char) (n : List Char) :
    ∀ h : List Char, subL (c :: n) h = true → c ∈ h := by
  intro h
  induction h with
  | nil => intro hh; simp [subL] at hh
  | cons b t ih =>
    intro hh
    rw [subL, Bool.or_eq_true] at hh
    rcases hh with hl | hs
    · rw [leadsL, Bool.and_eq_true, beq_iff_eq] at hl
      exact hl.1 ▸ List.mem_cons_self b t
    · exact List.mem_cons_of_mem b (ih hs)

/-- Uppercase ASCII letters never occur in a lowercased string. -/
theorem upper_not_mem_lowerStr (c : Char) (hc : c.toNat ≥ 65 ∧ c.toNat ≤ 90)
    (t : List Char) : c ∉ lowerStr t := by
  intro hmem
  rcases List.mem_map.mp hmem with ⟨d, _, hd⟩
  exact lowerChar_ne_upper d c hc hd

/-- The weight accumulated by the catalog fold never decreases when all
weights are nonnegative. -/
theorem foldl_weight_le (f : FraudPattern → Bool) :
    ∀ (l : List FraudPattern) (acc : List (String × String) × ℚ),
      (∀ p ∈ l, 0 ≤ p.weight) →
      acc.2 ≤ (List.foldl (fun acc p =>
        if f p then (acc.1 ++ [(p.category, p.description)], acc.2 + p.weight)
        else acc) acc l).2 := by
  intro l
  induction l with
  | nil => intro acc _; exact le_refl _
  | cons p rest ih =>
    intro acc hw
    rw [List.foldl_cons]
    have hrest : ∀ q ∈ rest, 0 ≤ q.weight := fun q hq => hw q (List.mem_cons_of_mem p hq)
    by_cases hf : f p
    · rw [if_pos hf]
      refine le_trans ?_ (ih _ hrest)
      have := hw p (List.mem_cons_self p rest)
      simp only []
      linarith
    · rw [if_neg hf]
      exact ih acc hrest

/-- Every catalog weight is nonnegative. -/
theorem fraud_patterns_weight_nonneg : ∀ p ∈ fraud_patterns, 0 ≤ p.weight := by
  with_unfolding_all decide

/-- The total matched weight is nonnegative for every text. -/
theorem patternWeight_nonneg (t : List Char) :
    0 ≤ (match_fraud_patterns t).2 := by
  have h := foldl_weight_le (patternHits (lowerStr t)) fraud_patterns ([], 0)
    fraud_patterns_weight_nonneg
  simpa [match_fraud_patterns] using h

/-- Three-decimal rounding is monotone. -/
theorem round3_mono {a b : ℚ} (h : a ≤ b) : round3 a ≤ round3 b := by
  unfold round3
  have : (⌊a * 1000 + 1/2⌋ : ℤ) ≤ ⌊b * 1000 + 1/2⌋ := by
    apply Int.floor_le_floor
    linarith
  have hcast : ((⌊a * 1000 + 1/2⌋ : ℤ) : ℚ) ≤ ((⌊b * 1000 + 1/2⌋ : ℤ) : ℚ) :=
    Int.cast_le.mpr this
  linarith

/-- Rounding fixes 0. -/
theorem round3_zero : round3 0 = 0 := by
  unfold round3
  norm_num

/-- Rounding fixes 1. -/
theorem round3_one : round3 1 = 1 := by
  unfold round3
  have : ⌊(1:ℚ) * 1000 + 1/2⌋ = 1000 := by
    rw [Int.floor_eq_iff]
    constructor <;> norm_num
  rw [this]
  norm_num

/-- Rounding fixes 0.7. -/
theorem round3_seven_tenths : round3 (7/10) = 7/10 := by
  unfold round3
  have : ⌊(7:ℚ)/10 * 1000 + 1/2⌋ = 700 := by
    rw [Int.floor_eq_iff]
    constructor <;> norm_num
  rw [this]
  norm_num

/-- The composite risk score never exceeds 1. -/
theorem riskOf_le_one (t : List Char) (ml : MLPort) : riskOf t ml ≤ 1 := by
  unfold riskOf calculate_risk_score
  exact min_le_left _ _

/-- The composite risk score is nonnegative whenever the external probability
is. -/
theorem riskOf_nonneg (t : List Char) (ml : MLPort)
    (h : 0 ≤ mlScamProb ml) : 0 ≤ riskOf t ml := by
  unfold riskOf calculate_risk_score
  apply le_min (by norm_num)
  have h1 : (0:ℚ) ≤ min (4/10) ((match_fraud_patterns t).2 / 10) := by
    apply le_min (by norm_num)
    have := patternWeight_nonneg t
    positivity
  have h2 : (0:ℚ) ≤ min (3/10)
      ((if (extract_linguistic_features t).urgency_words > 0 then (5/100:ℚ) else 0) +
       (if (extract_linguistic_features t).money_words > 0 then (1/10:ℚ) else 0) +
       (if (extract_linguistic_features t).personal_info_words > 0 then (15/100:ℚ) else 0) +
       (if (extract_linguistic_features t).exclamation_count > 2 then (5/100:ℚ) else 0) +
       (if (extract_linguistic_features t).uppercase_ratio > 3/10 then (5/100:ℚ) else 0)) := by
    apply le_min (by norm_num)
    have a1 : (0:ℚ) ≤ (if (extract_linguistic_features t).urgency_words > 0 then (5/100:ℚ) else 0) := by positivity
    have a2 : (0:ℚ) ≤ (if (extract_linguistic_features t).money_words > 0 then (1/10:ℚ) else 0) := by positivity
    have a3 : (0:ℚ) ≤ (if (extract_linguistic_features t).personal_info_words > 0 then (15/100:ℚ) else 0) := by positivity
    have a4 : (0:ℚ) ≤ (if (extract_linguistic_features t).exclamation_count > 2 then (5/100:ℚ) else 0) := by positivity
    have a5 : (0:ℚ) ≤ (if (extract_linguistic_features t).uppercase_ratio > 3/10 then (5/100:ℚ) else 0) := by positivity
    linarith
  have h3 : (0:ℚ) ≤ mlScamProb ml * (3/10) := by positivity
  linarith

/-- With an absent external classifier the composite risk score is bounded by
0.7 (pattern cap 0.4 plus linguistic cap 0.3). -/
theorem riskOf_mlAbsent_le (t : List Char) : riskOf t mlAbsent ≤ 7/10 := by
  unfold riskOf calculate_risk_score
  apply le_trans (min_le_right _ _)
  have h1 := min_le_left (4/10 : ℚ) ((match_fraud_patterns t).2 / 10)
  have h2 := min_le_left (3/10 : ℚ)
      ((if (extract_linguistic_features t).urgency_words > 0 then (5/100:ℚ) else 0) +
       (if (extract_linguistic_features t).money_words > 0 then (1/10:ℚ) else 0) +
       (if (extract_linguistic_features t).personal_info_words > 0 then (15/100:ℚ) else 0) +
       (if (extract_linguistic_features t).exclamation_count > 2 then (5/100:ℚ) else 0) +
       (if (extract_linguistic_features t).uppercase_ratio > 3/10 then (5/100:ℚ) else 0))
  have h3 : mlScamProb mlAbsent = 0 := rfl
  rw [h3]
  linarith

/-- Returned risk score is the rounded composite score. -/
theorem classify_risk_score_eq (t : List Char) (ml : MLPort) :
    (classify t ml).risk_score = round3 (riskOf t ml) := rfl

/-- Without an external prediction, the returned label is the threshold
label of the composite risk score. -/
theorem classify_label_of_no_pred (t : List Char) (sp : Option ℚ) :
    (classify t ⟨sp, none⟩).label =
      (if riskOf t ⟨sp, none⟩ > 7/10 then "Scam"
       else if riskOf t ⟨sp, none⟩ > 4/10 then "Suspicious" else "Safe") := rfl

/-- Segment triage does not touch the transcript or the active flag. -/
theorem asi_preserve (s : LiveSession) (t : List Char) :
    (analyze_segment_immediate s t).1.accumulated_transcript =
      s.accumulated_transcript ∧
    (analyze_segment_immediate s t).1.is_active = s.is_active := by
  refine ⟨?_, ?_⟩ <;>
  · unfold analyze_segment_immediate
    dsimp only
    split
    · rfl
    · split <;> rfl

/-- Full-context analysis does not touch the transcript or the active flag. -/
theorem afc_preserve (cf : List Char → ClassificationResult) (th : ℚ)
    (s : LiveSession) :
    (analyze_full_context cf th s).1.accumulated_transcript =
      s.accumulated_transcript ∧
    (analyze_full_context cf th s).1.is_active = s.is_active := by
  refine ⟨?_, ?_⟩ <;>
  · unfold analyze_full_context
    dsimp only
    split
    · rfl
    · split <;> rfl

/-- Processing a parseable segment of an active session appends a space plus
the segment text to the transcript, and keeps the session active. -/
theorem pts_withText (cf : List Char → ClassificationResult) (th : ℚ)
    (s : LiveSession) (str : String) (hact : s.is_active = true) :
    (process_transcript_segment cf th s (.withText str)).1.accumulated_transcript
      = s.accumulated_transcript ++ ' ' :: str.data ∧
    (process_transcript_segment cf th s (.withText str)).1.is_active = true := by
  unfold process_transcript_segment
  rw [hact]
  simp only [Bool.not_true, Bool.false_eq_true, if_false]
  constructor
  · rw [(afc_preserve cf th _).1, (asi_preserve _ str.data).1]
  · rw [(afc_preserve cf th _).2, (asi_preserve _ str.data).2]

/-- Transcript accumulation across a list of parseable segments: each step
appends a space plus the segment text, and the session stays active. -/
theorem processSegments_transcript (cf : List Char → ClassificationResult)
    (th : ℚ) :
    ∀ (texts : List String) (s : LiveSession), s.is_active = true →
      (processSegments cf th s (texts.map .withText)).1.accumulated_transcript
        = texts.foldl (fun acc x => acc ++ ' ' :: x.data)
            s.accumulated_transcript ∧
      (processSegments cf th s (texts.map .withText)).1.is_active = true := by
  intro texts
  induction texts with
  | nil => intro s hact; exact ⟨rfl, hact⟩
  | cons x rest ih =>
    intro s hact
    have hstep := pts_withText cf th s x hact
    rw [List.map_cons, processSegments]
    dsimp only
    have hrec := ih (process_transcript_segment cf th s (.withText x)).1 hstep.2
    rw [List.foldl_cons]
    exact ⟨by rw [hrec.1, hstep.1], hrec.2⟩

/-- Claim C5: if any step of scoring fails, the scorer converts the failure
at its boundary into a well-formed Safe result with confidence 0.3, risk
score 0 and a rationale naming the failure; every call returns a result. -/
theorem claim_C5 (e : String) :
    classifyCatch (.error e) = fallbackResult e ∧
    (fallbackResult e).label = "Safe" ∧
    (fallbackResult e).confidence = 3/10 ∧
    (fallbackResult e).risk_score = 0 ∧
    (fallbackResult e).rationale = "Classification error: " ++ e ∧
    (∀ t ml, classify t ml = classifyCatch (.ok (classifyBody t ml))) :=
  ⟨rfl, rfl, rfl, rfl, rfl, fun _ _ => rfl⟩

/-- Claim C6: triage severity is CRITICAL on any critical-set keyword, else
HIGH on any high-set keyword, else MEDIUM at three or more distinct
keywords, else LOW; a keyword-triage alert is emitted if and only if that
severity is HIGH or CRITICAL. -/
theorem claim_C6 (sess : LiveSession) (text : List Char) :
    (analyze_segment_immediate sess text =
      if calculate_severity (detectedKeywords text) = "HIGH" ∨
          calculate_severity (detectedKeywords text) = "CRITICAL" then
        ({ sess with alerts := sess.alerts ++
            [triageAlert (calculate_severity (detectedKeywords text)) text
              (detectedKeywords text)] },
          [.alertSent (triageAlert (calculate_severity (detectedKeywords text))
            text (detectedKeywords text))])
      else (sess, [])) ∧
    ((analyze_segment_immediate sess text).2 ≠ [] ↔
      (calculate_severity (detectedKeywords text) = "HIGH" ∨
        calculate_severity (detectedKeywords text) = "CRITICAL")) := by
  have key : analyze_segment_immediate sess text =
      if calculate_severity (detectedKeywords text) = "HIGH" ∨
          calculate_severity (detectedKeywords text) = "CRITICAL" then
        ({ sess with alerts := sess.alerts ++
            [triageAlert (calculate_severity (detectedKeywords text)) text
              (detectedKeywords text)] },
          [.alertSent (triageAlert (calculate_severity (detectedKeywords text))
            text (detectedKeywords text))])
      else (sess, []) := by
    unfold analyze_segment_immediate
    dsimp only
    by_cases hd : (detectedKeywords text).isEmpty = true
    · have he : detectedKeywords text = [] := by
        cases h : detectedKeywords text
        · rfl
        · rw [h] at hd
          simp at hd
      rw [if_pos hd, he]
      rw [if_neg (by decide :
        ¬(calculate_severity ([] : List String) = "HIGH" ∨
          calculate_severity ([] : List String) = "CRITICAL"))]
    · rw [if_neg hd]
  refine ⟨key, ?_⟩
  rw [key]
  by_cases hc : calculate_severity (detectedKeywords text) = "HIGH" ∨
      calculate_severity (detectedKeywords text) = "CRITICAL"
  · rw [if_pos hc]
    simp [hc]
  · rw [if_neg hc]
    simp [hc]

/-- After erasing a session id, looking it up yields nothing. -/
theorem lookup_eraseSession (store : SessionStore) (sid : String) :
    List.lookup sid (eraseSession store sid) = none := by
  induction store with
  | nil => rfl
  | cons kv rest ih =>
    unfold eraseSession at ih ⊢
    rw [List.filter_cons]
    by_cases h : kv.1 = sid
    · simp only [h, beq_self_eq_true, Bool.not_true, Bool.false_eq_true,
        if_false]
      exact ih
    · have hne : (kv.1 == sid) = false := beq_eq_false_iff_ne.mpr h
      simp only [hne, Bool.not_false, if_true]
      rw [List.lookup]
      have hne2 : (sid == kv.1) = false :=
        beq_eq_false_iff_ne.mpr (fun hx => h hx.symm)
      rw [hne2]
      exact ih

/-- Claim C7: ending an unknown (never started or already removed) session
returns the explicit not-found error; ending a known session returns the
final report and removes the session, after which a second end also reports
not-found. -/
theorem claim_C7 (store : SessionStore) (sid : String) :
    (List.lookup sid store = none →
      end_session store sid = .error "Session not found") ∧
    (∀ sess : LiveSession, List.lookup sid store = some sess →
      end_session store sid =
        .ok (buildFinalReport sid { sess with is_active := false },
          eraseSession store sid) ∧
      List.lookup sid (eraseSession store sid) = none ∧
      end_session (eraseSession store sid) sid =
        .error "Session not found") := by
  constructor
  · intro h
    unfold end_session
    rw [h]
  · intro sess h
    refine ⟨?_, lookup_eraseSession store sid, ?_⟩
    · unfold end_session
      rw [h]
    · unfold end_session
      rw [lookup_eraseSession store sid]

/-- Claim C7 witness: a store holding one session under id "s1". -/
theorem claim_C7_witness :
    end_session [("s1", newLiveSession)] "s2" = .error "Session not found" ∧
    end_session [("s1", newLiveSession)] "s1" =
      .ok (buildFinalReport "s1" { newLiveSession with is_active := false },
        eraseSession [("s1", newLiveSession)] "s1") ∧
    end_session (eraseSession [("s1", newLiveSession)] "s1") "s1" =
      .error "Session not found" := by
  refine ⟨?_, ?_, ?_⟩
  · exact (claim_C7 [("s1", newLiveSession)] "s2").1 rfl
  · exact ((claim_C7 [("s1", newLiveSession)] "s1").2 newLiveSession rfl).1
  · exact ((claim_C7 [("s1", newLiveSession)] "s1").2 newLiveSession rfl).2.2

/-- Claim C10: keyword detection checks each keyword verbatim against the
lowercased segment, so the uppercase keywords "IRS" and "PIN" are never
detected; a segment mentioning only the IRS yields no detected keywords and
no triage alert, leaving the "IRS" member of the critical set unreachable. -/
theorem claim_C10 :
    (∀ t : List Char, "IRS" ∉ detectedKeywords t ∧ "PIN" ∉ detectedKeywords t) ∧
    detectedKeywords "This is the IRS calling".data = [] ∧
    (∀ sess : LiveSession,
      analyze_segment_immediate sess "This is the IRS calling".data =
        (sess, [])) := by
  refine ⟨?_, by decide, ?_⟩
  · intro t
    constructor
    · intro hmem
      have hf := (List.mem_filter.mp hmem).2
      have hsub : subL ('I' :: "RS".data) (lowerStr t) = true := hf
      have hI : 'I' ∈ lowerStr t := mem_of_subL_cons 'I' "RS".data _ hsub
      exact upper_not_mem_lowerStr 'I' (by decide) t hI
    · intro hmem
      have hf := (List.mem_filter.mp hmem).2
      have hsub : subL ('P' :: "IN".data) (lowerStr t) = true := hf
      have hP : 'P' ∈ lowerStr t := mem_of_subL_cons 'P' "IN".data _ hsub
      exact upper_not_mem_lowerStr 'P' (by decide) t hP
  · intro sess
    unfold analyze_segment_immediate
    dsimp only
    rw [show detectedKeywords "This is the IRS calling".data = [] from by decide]
    rfl

/-- Recognizes an emitted context-escalation alert among monitor events. -/
def isEscalationEvent (e : MonitorEvent) : Bool :=
  match e with
  | .alertSent a => a.alert_type == "CONTEXT_ANALYSIS"
  | .contextAnalysis _ _ _ _ => false

/-- Claim C2: on a full-context re-score of an active session with at least
50 (stripped) accumulated characters, a context-escalation alert is emitted
if and only if the new risk score exceeds the alert threshold and exceeds
the previous score by more than 0.2 — and then exactly one is emitted,
carrying the last 200 characters of the transcript. -/
theorem claim_C2 (cf : List Char → ClassificationResult) (th : ℚ)
    (sess : LiveSession) (hact : sess.is_active = true)
    (hlen : 50 ≤ (stripChars sess.accumulated_transcript).length) :
    ((analyze_full_context cf th sess).2.filter isEscalationEvent =
      if (cf (stripChars sess.accumulated_transcript)).risk_score > th ∧
          (cf (stripChars sess.accumulated_transcript)).risk_score >
            sess.total_risk_score + 2/10 then
        [.alertSent (contextEscalationAlert
          (cf (stripChars sess.accumulated_transcript))
          sess.accumulated_transcript)]
      else []) ∧
    (contextEscalationAlert (cf (stripChars sess.accumulated_transcript))
        sess.accumulated_transcript).transcript_segment =
      lastN 200 sess.accumulated_transcript := by
  refine ⟨?_, rfl⟩
  unfold analyze_full_context
  rw [if_neg (by omega : ¬(stripChars sess.accumulated_transcript).length < 50)]
  dsimp only
  by_cases hc : (cf (stripChars sess.accumulated_transcript)).risk_score > th ∧
      (cf (stripChars sess.accumulated_transcript)).risk_score >
        sess.total_risk_score + 2/10
  · rw [if_pos hc, if_pos hc]
    rfl
  · rw [if_neg hc, if_neg hc]
    rfl

/-- A fixed classifier result carrying a prescribed risk score, used to
instantiate the injected classifier in monitor witnesses. -/
def demoResult (q : ℚ) : ClassificationResult :=
  { label := "Suspicious"
    confidence := 13/20
    rationale := ""
    keywords := []
    risk_score := q
    fraud_indicators := []
    linguistic_features := none
    pattern_matches := []
    recommendation := "" }

/-- A 55-character transcript for monitor witnesses. -/
def demoTranscript : List Char :=
  "this call says your account is suspended please verify".data

/-- Session with previous risk score 0.35. -/
def sessRisk35 : LiveSession :=
  { accumulated_transcript := demoTranscript
    alerts := []
    risk_level := "LOW"
    total_risk_score := 35/100
    is_active := true }

/-- Session with previous risk score 0.30. -/
def sessRisk30 : LiveSession :=
  { accumulated_transcript := demoTranscript
    alerts := []
    risk_level := "LOW"
    total_risk_score := 30/100
    is_active := true }

/-- Claim C2 witness: with alert threshold 0.3, a re-score from 0.35 to 0.50
emits no escalation alert, while a re-score from 0.30 to 0.55 emits exactly
one, carrying the last 200 transcript characters. -/
theorem claim_C2_witness :
    (analyze_full_context (fun _ => demoResult (50/100)) (3/10) sessRisk35).2.filter
        isEscalationEvent = [] ∧
    (analyze_full_context (fun _ => demoResult (55/100)) (3/10) sessRisk30).2.filter
        isEscalationEvent =
      [.alertSent (contextEscalationAlert (demoResult (55/100))
        sessRisk30.accumulated_transcript)] ∧
    (contextEscalationAlert (demoResult (55/100))
        sessRisk30.accumulated_transcript).transcript_segment =
      lastN 200 sessRisk30.accumulated_transcript := by
  have hlen : 50 ≤ (stripChars sessRisk35.accumulated_transcript).length := by
    decide
  have h35 := claim_C2 (fun _ => demoResult (50/100)) (3/10) sessRisk35 rfl hlen
  have h30 := claim_C2 (fun _ => demoResult (55/100)) (3/10) sessRisk30 rfl hlen
  refine ⟨?_, ?_, h30.2⟩
  · rw [h35.1]
    rw [if_neg]
    intro hcontra
    have h2 := hcontra.2
    have : (demoResult (50/100)).risk_score = 50/100 := rfl
    rw [this] at h2
    have : sessRisk35.total_risk_score = 35/100 := rfl
    rw [this] at h2
    norm_num at h2
  · rw [h30.1]
    rw [if_pos]
    constructor
    · show (demoResult (55/100)).risk_score > 3/10
      show (55:ℚ)/100 > 3/10
      norm_num
    · show (demoResult (55/100)).risk_score > sessRisk30.total_risk_score + 2/10
      show (55:ℚ)/100 > 30/100 + 2/10
      norm_num

/-- Once enough stripped context is accumulated, full-context analysis always
emits at least the context-analysis snapshot. -/
theorem afc_events_nonempty (cf : List Char → ClassificationResult) (th : ℚ)
    (s : LiveSession)
    (hlen : 50 ≤ (stripChars s.accumulated_transcript).length) :
    (analyze_full_context cf th s).2 ≠ [] := by
  unfold analyze_full_context
  rw [if_neg (by omega : ¬(stripChars s.accumulated_transcript).length < 50)]
  dsimp only
  split
  · simp
  · simp

/-- Triage of an empty segment text detects nothing and does nothing. -/
theorem asi_empty (s : LiveSession) : analyze_segment_immediate s [] = (s, []) :=
  rfl

/-- The model of `get_global_classifier()` when the optional external ML
collaborator is absent. -/
def classifierNoML : List Char → ClassificationResult :=
  fun t => classify t mlAbsent

/-- Claim C8 (amended): a segment of unparseable shape is ignored entirely,
but a segment with empty text is not: it appends one space to the
accumulated transcript, produces no keyword-triage output, and still
triggers full-context analysis (with its snapshot output) once the stripped
transcript holds at least 50 characters. -/
theorem claim_C8 (cf : List Char → ClassificationResult) (th : ℚ)
    (sess : LiveSession) (hact : sess.is_active = true) :
    (process_transcript_segment cf th sess .unparseable = (sess, [])) ∧
    ((process_transcript_segment cf th sess (.withText "")).1.accumulated_transcript
      = sess.accumulated_transcript ++ [' ']) ∧
    (50 ≤ (stripChars (sess.accumulated_transcript ++ [' '])).length →
      (process_transcript_segment cf th sess (.withText "")).2 ≠ []) := by
  refine ⟨?_, (pts_withText cf th sess "" hact).1, ?_⟩
  · unfold process_transcript_segment
    rw [hact]
    rfl
  · intro hlen
    unfold process_transcript_segment
    rw [hact]
    simp only [Bool.not_true, Bool.false_eq_true, if_false]
    rw [asi_empty]
    simp only [List.nil_append]
    exact afc_events_nonempty cf th _ hlen

/-- Session used for the C8 counterexample. -/
def sessHello : LiveSession :=
  { accumulated_transcript := "hello".data
    alerts := []
    risk_level := "LOW"
    total_risk_score := 0
    is_active := true }

/-- Claim C8 counterexample: ingesting an empty-text segment changes the
accumulated transcript (a space is appended), so the claim that such a
segment leaves the session unchanged is false. -/
theorem claim_C8_counterexample :
    (process_transcript_segment classifierNoML (3/10) sessHello
      (.withText "")).1.accumulated_transcript ≠
      sessHello.accumulated_transcript := by
  decide

/-- Claim C8 witness: a 55-character active session, showing the unparseable
no-op, the space append, and the nonempty full-context output. -/
theorem claim_C8_witness :
    process_transcript_segment classifierNoML (3/10) sessRisk30 .unparseable
      = (sessRisk30, []) ∧
    (process_transcript_segment classifierNoML (3/10) sessRisk30
      (.withText "")).1.accumulated_transcript =
      sessRisk30.accumulated_transcript ++ [' '] ∧
    (process_transcript_segment classifierNoML (3/10) sessRisk30
      (.withText "")).2 ≠ [] := by
  have h := claim_C8 classifierNoML (3/10) sessRisk30 rfl
  exact ⟨h.1, h.2.1, h.2.2 (by decide)⟩

/-- Claim C9 (amended): ingesting parseable segments in arrival order
accumulates, from the empty transcript created by start, the space-separated
concatenation of their texts in that order — each segment is appended as one
space plus its text, not bare concatenation. -/
theorem claim_C9 (cf : List Char → ClassificationResult) (th : ℚ)
    (texts : List String) :
    (processSegments cf th newLiveSession
      (texts.map .withText)).1.accumulated_transcript =
      texts.foldl (fun acc x => acc ++ ' ' :: x.data) [] := by
  have h := processSegments_transcript cf th texts newLiveSession rfl
  exact h.1

/-- Claim C9 counterexample: the three-segment scenario accumulates
`" Hello this is urgent send bitcoin now"`, which is not the exact
concatenation of the three texts. -/
theorem claim_C9_counterexample :
    (processSegments classifierNoML (3/10) newLiveSession
      [.withText "Hello", .withText "this is urgent",
        .withText "send bitcoin now"]).1.accumulated_transcript =
      " Hello this is urgent send bitcoin now".data ∧
    (processSegments classifierNoML (3/10) newLiveSession
      [.withText "Hello", .withText "this is urgent",
        .withText "send bitcoin now"]).1.accumulated_transcript ≠
      ("Hello" ++ "this is urgent" ++ "send bitcoin now").data := by
  constructor
  · decide
  · decide

/-- The scenario-A text of the spec. -/
def scenarioAText : List Char :=
  "Your account has been suspended. Please verify your social security number and bank account immediately.".data

/-- A crafted text whose composite risk score is exactly 0.7 (pattern cap
0.4 plus full linguistic cap 0.3, no external contribution). -/
def boundaryText : List Char := "urgent money ssn".data

/-- With an absent external classifier no label can be Scam: the composite
score is capped at 0.4 + 0.3 = 0.7 and the Scam threshold is strict. -/
theorem classify_mlAbsent_not_scam (t : List Char) :
    (classify t mlAbsent).risk_score ≤ 7/10 ∧
    (classify t mlAbsent).label ≠ "Scam" := by
  have hr := riskOf_mlAbsent_le t
  constructor
  · rw [classify_risk_score_eq]
    calc round3 (riskOf t mlAbsent) ≤ round3 (7/10) := round3_mono hr
      _ = 7/10 := round3_seven_tenths
  · have hlabel : (classify t mlAbsent).label =
        (if riskOf t mlAbsent > 7/10 then "Scam"
         else if riskOf t mlAbsent > 4/10 then "Suspicious" else "Safe") :=
      classify_label_of_no_pred t none
    rw [hlabel, if_neg (not_lt.mpr hr)]
    split
    · decide
    · decide

/-- Claim C1 (amended): on the scenario-A text the pattern weight sum is
13.5 ≥ 8 and the pattern score is capped at 0.4, but with no external
classifier contribution the resulting classification is Suspicious with
risk score 0.55 — not Scam, which is unreachable without the external
classifier since the composite score never exceeds 0.7. -/
theorem claim_C1 :
    (match_fraud_patterns scenarioAText).2 = 27/2 ∧
    8 ≤ (match_fraud_patterns scenarioAText).2 ∧
    min (4/10 : ℚ) ((match_fraud_patterns scenarioAText).2 / 10) = 4/10 ∧
    (classify scenarioAText mlAbsent).label = "Suspicious" ∧
    (classify scenarioAText mlAbsent).risk_score = 11/20 ∧
    (∀ t : List Char, (classify t mlAbsent).risk_score ≤ 7/10 ∧
      (classify t mlAbsent).label ≠ "Scam") := by
  refine ⟨?_, ?_, ?_, ?_, ?_, classify_mlAbsent_not_scam⟩
  · with_unfolding_all decide
  · with_unfolding_all decide
  · with_unfolding_all decide
  · with_unfolding_all decide
  · with_unfolding_all decide

/-- Claim C1 counterexample: on the scenario-A text the matched weight does
reach 8.0, yet the classification is Suspicious with risk score 0.55, so the
claimed outcome (label Scam with risk score above 0.7) is false. -/
theorem claim_C1_counterexample :
    8 ≤ (match_fraud_patterns scenarioAText).2 ∧
    ¬((classify scenarioAText mlAbsent).label = "Scam" ∧
      (classify scenarioAText mlAbsent).risk_score > 7/10) := by
  constructor
  · with_unfolding_all decide
  · with_unfolding_all decide

/-- Claim C3: every returned risk score lies in [0,1]; without an external
prediction the label thresholds are strict (> 0.7 Scam, > 0.4 Suspicious,
else Safe); and a text scoring exactly 0.7 is classified Suspicious. -/
theorem claim_C3 (t : List Char) (ml : MLPort) (hml : 0 ≤ mlScamProb ml) :
    (0 ≤ (classify t ml).risk_score ∧ (classify t ml).risk_score ≤ 1) ∧
    (ml.pred = none → (classify t ml).label =
      (if riskOf t ml > 7/10 then "Scam"
       else if riskOf t ml > 4/10 then "Suspicious" else "Safe")) ∧
    (riskOf boundaryText mlAbsent = 7/10 ∧
      (classify boundaryText mlAbsent).risk_score = 7/10 ∧
      (classify boundaryText mlAbsent).label = "Suspicious") := by
  refine ⟨⟨?_, ?_⟩, ?_, ?_, ?_, ?_⟩
  · rw [classify_risk_score_eq]
    calc (0:ℚ) = round3 0 := round3_zero.symm
      _ ≤ round3 (riskOf t ml) := round3_mono (riskOf_nonneg t ml hml)
  · rw [classify_risk_score_eq]
    calc round3 (riskOf t ml) ≤ round3 1 := round3_mono (riskOf_le_one t ml)
      _ = 1 := round3_one
  · intro hpred
    obtain ⟨sp, pred⟩ := ml
    dsimp only at hpred
    subst hpred
    exact classify_label_of_no_pred t sp
  · with_unfolding_all decide
  · with_unfolding_all decide
  · with_unfolding_all decide

/-- Claim C3 witness: the boundary text instantiates the bounds and the
threshold-label equation. -/
theorem claim_C3_witness :
    (0 ≤ (classify boundaryText mlAbsent).risk_score ∧
      (classify boundaryText mlAbsent).risk_score ≤ 1) ∧
    (classify boundaryText mlAbsent).label =
      (if riskOf boundaryText mlAbsent > 7/10 then "Scam"
       else if riskOf boundaryText mlAbsent > 4/10 then "Suspicious"
       else "Safe") := by
  have h := claim_C3 boundaryText mlAbsent (le_refl 0)
  exact ⟨h.1, h.2.1 rfl⟩

/-- When the external prediction beats the threshold-derived confidence, the
label and (capped) confidence come from the external classifier. -/
theorem classify_label_override (t : List Char) (sp : Option ℚ) (l : String)
    (p : ℚ) (h : p > baseConfidence (riskOf t ⟨sp, some (l, p)⟩)) :
    (classify t ⟨sp, some (l, p)⟩).label = l ∧
    (classify t ⟨sp, some (l, p)⟩).confidence = round3 (min (95/100) p) := by
  unfold riskOf at h
  unfold classify classifyCatch classifyBody
  dsimp only
  rw [if_pos h]
  exact ⟨rfl, rfl⟩

/-- Claim C4 (amended): the returned numeric risk score is always the
rounded pattern+linguistic+ml composite of step 4, never replaced by the
external classifier; when the external prediction has higher confidence than
the threshold-derived one, the returned label is the external one and the
returned confidence is the external confidence capped at 0.95. -/
theorem claim_C4 (t : List Char) (sp : Option ℚ) (pr : Option (String × ℚ)) :
    ((classify t ⟨sp, pr⟩).risk_score = (classify t ⟨sp, none⟩).risk_score) ∧
    ((classify t ⟨sp, pr⟩).risk_score = round3 (riskOf t ⟨sp, pr⟩)) ∧
    (∀ l p, pr = some (l, p) →
      p > baseConfidence (riskOf t ⟨sp, pr⟩) →
      (classify t ⟨sp, pr⟩).label = l ∧
      (classify t ⟨sp, pr⟩).confidence = round3 (min (95/100) p)) := by
  refine ⟨rfl, rfl, ?_⟩
  intro l p hpr hgt
  subst hpr
  exact classify_label_override t sp l p hgt

/-- Claim C4 counterexample: with an external prediction ("Scam", 0.99) the
override fires on the boundary text, but the returned confidence is 0.95,
not the external 0.99 — the claim that the returned confidence is the
external one is false. -/
theorem claim_C4_counterexample :
    (99/100 : ℚ) >
      baseConfidence (riskOf boundaryText ⟨none, some ("Scam", 99/100)⟩) ∧
    (classify boundaryText ⟨none, some ("Scam", 99/100)⟩).label = "Scam" ∧
    (classify boundaryText ⟨none, some ("Scam", 99/100)⟩).confidence = 19/20 ∧
    (19/20 : ℚ) ≠ 99/100 := by
  refine ⟨?_, ?_, ?_, ?_⟩
  · with_unfolding_all decide
  · with_unfolding_all decide
  · with_unfolding_all decide
  · with_unfolding_all decide

/-- Claim C4 witness: the amended theorem applied to the boundary text with
external prediction ("Scam", 0.99). -/
theorem claim_C4_witness :
    (classify boundaryText ⟨none, some ("Scam", 99/100)⟩).label = "Scam" ∧
    (classify boundaryText ⟨none, some ("Scam", 99/100)⟩).confidence =
      round3 (min (95/100) (99/100)) ∧
    (classify boundaryText ⟨none, some ("Scam", 99/100)⟩).risk_score =
      (classify boundaryText ⟨none, none⟩).risk_score := by
  have h := claim_C4 boundaryText none (some ("Scam", 99/100))
  have hov := h.2.2 "Scam" (99/100) rfl (by with_unfolding_all decide)
  exact ⟨hov.1, hov.2, h.1⟩
